import Mathlib

/-!
Verification of the OpenCoarrays MPI transport layer (`src/mpi/mpi_caf.c`).

The definitions below are a shallow embedding of the C source: byte-addressed
memory is a total function from integer addresses to byte values, MPI one-sided
put/get operations and `memcpy`/`memmove` become functional copies between such
memories, and the library entry points become pure functions from their inputs
and the pre-state to the post-state.  The embedding models the configuration
without `WITH_FAILED_IMAGES` and with the per-element (non `STRIDED`) transfer
policy; MPI primitive calls are assumed to succeed (`ierr = 0`), matching the
error-free executions the claims are about.  Window locking calls do not change
data and are not represented.
-/

/-- Byte-addressed memory: a total map from (integer) addresses to byte values.
Negative addresses are allowed because C pointer arithmetic with `ptrdiff_t`
offsets can step below a base address. -/
def ByteMem : Type := Int → Nat

/-- `memmove`/`MPI_Put`/`MPI_Get` of `len` bytes from `src` at `srcOff` into
`dst` at `dstOff`.  The source is read as a snapshot, which is exactly the
guarantee of `memmove` and of a single one-sided transfer. -/
def copy_bytes (dst : ByteMem) (dstOff : Int) (src : ByteMem) (srcOff : Int)
    (len : Nat) : ByteMem :=
  fun a => if dstOff ≤ a ∧ a < dstOff + len
           then src (srcOff + (a - dstOff))
           else dst a

/-- Store an explicit list of bytes at `off` (a put from a scratch buffer). -/
def store_list (dst : ByteMem) (off : Int) (data : List Nat) : ByteMem :=
  fun a => if off ≤ a ∧ a < off + data.length
           then data.getD (a - off).toNat 0
           else dst a

/-- Read `len` consecutive bytes starting at `off`. -/
def read_list (m : ByteMem) (off : Int) (len : Nat) : List Nat :=
  (List.range len).map (fun i : Nat => m (off + (i : Int)))

theorem read_copy_bytes (dst : ByteMem) (dstOff : Int) (src : ByteMem)
    (srcOff : Int) (len : Nat) :
    read_list (copy_bytes dst dstOff src srcOff len) dstOff len
      = read_list src srcOff len := by
  unfold read_list copy_bytes
  apply List.map_congr_left
  intro i hi
  rw [List.mem_range] at hi
  have h1 : dstOff ≤ dstOff + (i : Int) ∧ dstOff + (i : Int) < dstOff + len := by
    constructor <;> omega
  rw [if_pos h1]
  congr 1
  omega

theorem read_store_list (dst : ByteMem) (off : Int) (data : List Nat) :
    read_list (store_list dst off data) off data.length = data := by
  unfold read_list store_list
  apply List.ext_getElem
  · simp
  · intro i h1 h2
    simp only [List.getElem_map, List.getElem_range]
    have hi : i < data.length := by simpa using h2
    have hcond : off ≤ off + (i : Int) ∧ off + (i : Int) < off + data.length := by
      constructor <;> omega
    rw [if_pos hcond]
    have : (off + (i : Int) - off).toNat = i := by omega
    rw [this]
    exact List.getD_eq_getElem data 0 hi

/-! ## The descriptor model (`libcaf-gfortran-descriptor.h`) -/

/-- The element types distinguished by `GFC_DESCRIPTOR_TYPE`. -/
inductive BT where
  | integer
  | logical
  | real
  | complex
  | character
  | derived
deriving DecidableEq, Repr

/-- One dimension of a gfortran array descriptor: `{lower_bound, _ubound,
_stride}`. -/
structure descriptor_dimension where
  lower_bound : Int
  ubound : Int
  stride : Int
deriving DecidableEq, Repr

/-- A gfortran array descriptor as the runtime consumes it: base address,
element byte size (`GFC_DESCRIPTOR_SIZE`), element type
(`GFC_DESCRIPTOR_TYPE`) and the per-dimension triples.  The rank
(`GFC_DESCRIPTOR_RANK`) is the number of dimensions. -/
structure gfc_descriptor_t where
  base_addr : Int
  elem_size : Nat
  dtype : BT
  dims : List descriptor_dimension
deriving DecidableEq, Repr

/-- `GFC_DESCRIPTOR_RANK`. -/
def descRank (d : gfc_descriptor_t) : Nat := d.dims.length

/-- The raw extent `_ubound - lower_bound + 1` of one dimension. -/
def dim_extent (dim : descriptor_dimension) : Int :=
  dim.ubound - dim.lower_bound + 1

/-- The element-count loop at mpi_caf.c:1702-1709 (and 2038-2045, 1557-1563):
the product over the first `n` dimensions of `dest` of the extent clamped at
zero.  `send` and `sendget` use `n = rank dest`; `get` uses `n = rank src`. -/
def transfer_size (n : Nat) (dest : gfc_descriptor_t) : Nat :=
  (dest.dims.take n).foldl (fun s dim => s * (dim_extent dim).toNat) 1

/-- Modelled from the spec: `PREFIX (is_contiguous)` is defined in
`src/common/caf_auxiliary.c`, which is not part of this source tree.
Following the spec (sections 3 and 4.D.4), a descriptor is contiguous when its
elements are dense in memory: the first stride is 1 and each later stride is
the product of the extents of the earlier dimensions. -/
def contiguous_dims : Int → List descriptor_dimension → Bool
  | _, [] => true
  | expected, dim :: rest =>
      dim.stride == expected &&
        contiguous_dims (expected * dim_extent dim) rest

/-- Modelled from the spec: contiguity of a whole descriptor (see
`contiguous_dims`). -/
def is_contiguous (d : gfc_descriptor_t) : Bool :=
  contiguous_dims 1 d.dims

/-! ## Character padding (mpi_caf.c:1716-1724 and 2052-2060) -/

/-- The scratch pad of `len = dst_size - src_size` bytes built when the
destination is a CHARACTER with a larger element size: for `dst_kind = 1` it
is `memset` to the ASCII space 0x20; otherwise (`dst_kind = 4`) `len/4`
`int32_t` slots are each set to 0x20, laid out little-endian.  Only the
initialized bytes are represented. -/
def pad_str_bytes (dst_kind : Int) (len : Nat) : List Nat :=
  if dst_kind = 1 then List.replicate len 32
  else (List.replicate (len / 4) ([32, 0, 0, 0] : List Nat)).flatten

/-! ## Linear-index unravelling (mpi_caf.c:1912-1923 and friends)

The per-element loops convert a linear index `i` into a per-dimension offset:
for every dimension except the last, the digit
`(i / (extent of the earlier dims)) % extent` is multiplied with the stride,
and the final quotient is multiplied with the last stride. -/

def array_offset : List descriptor_dimension → Nat → Int
  | [], _ => 0
  | [dim], i => (i : Int) * dim.stride
  | dim :: rest, i =>
      ((i % (dim_extent dim).toNat : Nat) : Int) * dim.stride
        + array_offset rest (i / (dim_extent dim).toNat)

/-! ## The transfer engine: `send`, `get`, `sendget`

State passed through a transfer: the executing image's local memory (holding
the source of a `send` and the destination of a `get`), the contents of the
target image's window, the caller's `stat` variable (`none` when the caller
passed no `stat`), and a count of one-sided RMA operations issued. -/

structure TransferState where
  localMem : ByteMem
  win : ByteMem
  stat : Option Int
  rma : Nat

/-- The contiguous fast-path condition of `send` (mpi_caf.c:1725-1729) and of
`sendget` (mpi_caf.c:1571-1575). -/
def send_fast_cond (dest src : gfc_descriptor_t) (dst_kind src_kind : Int) :
    Bool :=
  descRank dest == 0 ||
    (dest.dtype == src.dtype && dst_kind == src_kind && descRank src != 0 &&
     (dest.dtype != BT.character || dest.elem_size == src.elem_size) &&
     is_contiguous dest && is_contiguous src)

/-- The contiguous fast-path condition of `get` (mpi_caf.c:2062-2066); note
that `rank` there is the rank of `src` (mpi_caf.c:2030) and that the
`GFC_DESCRIPTOR_RANK (src) != 0` conjunct of `send` is absent. -/
def get_fast_cond (dest src : gfc_descriptor_t) (dst_kind src_kind : Int) :
    Bool :=
  descRank src == 0 ||
    (dest.dtype == src.dtype && dst_kind == src_kind &&
     (dest.dtype != BT.character || dest.elem_size == src.elem_size) &&
     is_contiguous dest && is_contiguous src)

/-- Source address of element `i` in the per-element loops: for a non-scalar
source, `src->base_addr + array_offset_sr * src_size`, else `src->base_addr`
(mpi_caf.c:1926-1949). -/
def src_elem_addr (src : gfc_descriptor_t) (i : Nat) : Int :=
  if descRank src ≠ 0
  then src.base_addr + array_offset src.dims i * src.elem_size
  else src.base_addr

/-- One iteration of the remote per-element loop of `send`
(mpi_caf.c:1906-1977): `MPI_Put` of `dst_size` bytes from the source element
at `dst_offset = offset + array_offset_dst * dst_size`, then — when a pad was
built — a second put of the pad at `dst_offset` itself (mpi_caf.c:1965-1967),
overwriting the leading bytes of the element just written. -/
def send_elem_remote (offset : Int) (dest src : gfc_descriptor_t)
    (pad_needed : Bool) (pad : List Nat) (acc : TransferState) (i : Nat) :
    TransferState :=
  let dst_off : Int := offset + array_offset dest.dims i * dest.elem_size
  let acc1 : TransferState :=
    { acc with
        win := copy_bytes acc.win dst_off acc.localMem (src_elem_addr src i)
          dest.elem_size,
        rma := acc.rma + 1 }
  if pad_needed then
    { acc1 with win := store_list acc1.win dst_off pad, rma := acc1.rma + 1 }
  else acc1

/-- One iteration of the own-image, `mrt = false` per-element loop of `send`
(mpi_caf.c:1953-1954): `memmove` of `src_size` bytes to
`dest->base_addr + dst_offset`. -/
def send_elem_self (offset : Int) (dest src : gfc_descriptor_t)
    (lm : ByteMem) (i : Nat) : ByteMem :=
  let dst_off : Int := offset + array_offset dest.dims i * dest.elem_size
  copy_bytes lm (dest.base_addr + dst_off) lm (src_elem_addr src i)
    src.elem_size

/-- Phase one of the own-image `mrt = true` path of `send`
(mpi_caf.c:1957-1958): stage each source element into `t_buff` at
`i * src_size`. -/
def send_mrt_stage (src : gfc_descriptor_t) (lm : ByteMem) (tb : ByteMem)
    (i : Nat) : ByteMem :=
  copy_bytes tb ((i : Int) * src.elem_size) lm (src_elem_addr src i)
    src.elem_size

/-- Phase two of the own-image `mrt = true` path of `send`
(mpi_caf.c:1981-2005): write each staged element of `src_size` bytes back to
`src->base_addr + dst_offset` (the source base address, as written). -/
def send_mrt_write (offset : Int) (dest src : gfc_descriptor_t)
    (tb : ByteMem) (lm : ByteMem) (i : Nat) : ByteMem :=
  let dst_off : Int := offset + array_offset dest.dims i * dest.elem_size
  copy_bytes lm (src.base_addr + dst_off) tb ((i : Int) * src.elem_size)
    src.elem_size

/-- The per-element general path of `send` (mpi_caf.c:1899-2013, the
configuration without `STRIDED`). -/
def send_general (this_image image_index : Int) (offset : Int)
    (dest src : gfc_descriptor_t) (pad_needed : Bool) (pad : List Nat)
    (mrt : Bool) (size : Nat) (st : TransferState) : TransferState :=
  if this_image = image_index then
    if mrt then
      let tbuff : ByteMem :=
        (List.range size).foldl (send_mrt_stage src st.localMem) (fun _ => 0)
      let lm :=
        (List.range size).foldl (send_mrt_write offset dest src tbuff)
          st.localMem
      { st with localMem := lm }
    else
      let lm :=
        (List.range size).foldl (send_elem_self offset dest src) st.localMem
      { st with localMem := lm }
  else
    (List.range size).foldl (send_elem_remote offset dest src pad_needed pad)
      st

/-- `PREFIX (send)` (mpi_caf.c:1680-2014): size computation and zero-size
early return, pad construction, the contiguous fast path (local `memmove` on
the own image, a bulk `MPI_Put` of `min(dst_size, src_size) * size` bytes plus
a trailing pad put on a remote image), and the per-element general path. -/
def caf_send (this_image image_index : Int) (offset : Int)
    (dest src : gfc_descriptor_t) (dst_kind src_kind : Int) (mrt : Bool)
    (st : TransferState) : TransferState :=
  let size := transfer_size (descRank dest) dest
  if size = 0 then st
  else
    let pad_needed : Bool :=
      dest.dtype == BT.character && dest.elem_size > src.elem_size
    let pad := pad_str_bytes dst_kind (dest.elem_size - src.elem_size)
    if send_fast_cond dest src dst_kind src_kind then
      if this_image = image_index then
        let lm := copy_bytes st.localMem dest.base_addr st.localMem
          src.base_addr (size * dest.elem_size)
        { st with localMem := lm }
      else
        let tlen := (min dest.elem_size src.elem_size) * size
        let st1 : TransferState :=
          if dest.dtype == src.dtype && dst_kind == src_kind then
            { st with
                win := copy_bytes st.win offset st.localMem src.base_addr tlen,
                rma := st.rma + 1 }
          else st
        if pad_needed then
          { st1 with win := store_list st1.win (offset + tlen) pad,
                     rma := st1.rma + 1 }
        else st1
    else
      send_general this_image image_index offset dest src pad_needed pad mrt
        size st

/-- One iteration of the remote per-element loop of `get`
(mpi_caf.c:2208-2270): `MPI_Get` of the element (target count `src_size`
bytes) into `dest->base_addr + array_offset_dst * dst_size`, then the pad is
copied behind the first `src_size` bytes of the destination element
(mpi_caf.c:2262-2266). -/
def get_elem_remote (offset : Int) (src dest : gfc_descriptor_t)
    (pad_needed : Bool) (pad : List Nat) (acc : TransferState) (i : Nat) :
    TransferState :=
  let dst_addr : Int :=
    dest.base_addr + array_offset dest.dims i * dest.elem_size
  let sr_off : Int := offset + array_offset src.dims i * src.elem_size
  let lm1 := copy_bytes acc.localMem dst_addr acc.win sr_off src.elem_size
  let lm2 := if pad_needed
    then store_list lm1 (dst_addr + src.elem_size) pad
    else lm1
  { acc with localMem := lm2, rma := acc.rma + 1 }

/-- One iteration of the own-image, `mrt = false` per-element loop of `get`
(mpi_caf.c:2252-2253): `memmove` of `src_size` bytes from the source element
to `dest->base_addr + array_offset_dst * dst_size`. -/
def get_elem_self (src dest : gfc_descriptor_t) (lm : ByteMem) (i : Nat) :
    ByteMem :=
  let dst_addr : Int :=
    dest.base_addr + array_offset dest.dims i * dest.elem_size
  copy_bytes lm dst_addr lm
    (src.base_addr + array_offset src.dims i * src.elem_size) src.elem_size

/-- Phase one of the own-image `mrt = true` path of `get`
(mpi_caf.c:2256-2257): stage each destination element (`dst_size` bytes) into
`t_buff` at `i * dst_size`. -/
def get_mrt_stage (dest : gfc_descriptor_t) (lm : ByteMem) (tb : ByteMem)
    (i : Nat) : ByteMem :=
  copy_bytes tb ((i : Int) * dest.elem_size) lm
    (dest.base_addr + array_offset dest.dims i * dest.elem_size)
    dest.elem_size

/-- Phase two of the own-image `mrt = true` path of `get`
(mpi_caf.c:2274-2299): write each staged element of `src_size` bytes to
`dest->base_addr + sr_off` where `sr_off = offset + array_offset_sr *
src_size`. -/
def get_mrt_write (offset : Int) (src dest : gfc_descriptor_t)
    (tb : ByteMem) (lm : ByteMem) (i : Nat) : ByteMem :=
  let sr_off : Int := offset + array_offset src.dims i * src.elem_size
  copy_bytes lm (dest.base_addr + sr_off) tb ((i : Int) * src.elem_size)
    src.elem_size

/-- The per-element general path of `get` (mpi_caf.c:2201-2305, the
configuration without `STRIDED`). -/
def get_general (this_image image_index : Int) (offset : Int)
    (src dest : gfc_descriptor_t) (pad_needed : Bool) (pad : List Nat)
    (mrt : Bool) (size : Nat) (st : TransferState) : TransferState :=
  if this_image = image_index then
    if mrt then
      let tbuff : ByteMem :=
        (List.range size).foldl (get_mrt_stage dest st.localMem) (fun _ => 0)
      let lm :=
        (List.range size).foldl (get_mrt_write offset src dest tbuff)
          st.localMem
      { st with localMem := lm }
    else
      let lm :=
        (List.range size).foldl (get_elem_self src dest) st.localMem
      { st with localMem := lm }
  else
    (List.range size).foldl (get_elem_remote offset src dest pad_needed pad)
      st

/-- `PREFIX (get)` (mpi_caf.c:2019-2306): the element count is the product of
the clamped extents of the first `rank(src)` dimensions of `dest`
(mpi_caf.c:2030 and 2038-2045); zero count returns at once; then the pad is
built, and either the contiguous fast path (local `memmove`, or a bulk
`MPI_Get` of `dst_size * size` bytes followed by one pad `memcpy` behind the
first `src_size` bytes of the destination) or the per-element path runs. -/
def caf_get (this_image image_index : Int) (offset : Int)
    (src dest : gfc_descriptor_t) (src_kind dst_kind : Int) (mrt : Bool)
    (st : TransferState) : TransferState :=
  let size := transfer_size (descRank src) dest
  if size = 0 then st
  else
    let pad_needed : Bool :=
      dest.dtype == BT.character && dest.elem_size > src.elem_size
    let pad := pad_str_bytes dst_kind (dest.elem_size - src.elem_size)
    if get_fast_cond dest src dst_kind src_kind then
      if this_image = image_index then
        let lm := copy_bytes st.localMem dest.base_addr st.localMem
          src.base_addr (size * src.elem_size)
        { st with localMem := lm }
      else
        let lm1 := copy_bytes st.localMem dest.base_addr st.win offset
          (dest.elem_size * size)
        let lm2 := if pad_needed
          then store_list lm1 (dest.base_addr + src.elem_size) pad
          else lm1
        { st with localMem := lm2, rma := st.rma + 1 }
    else
      get_general this_image image_index offset src dest pad_needed pad mrt
        size st

/-- State of a `sendget`: the windows of the two target images (`token_s` is
written, `token_g` is read), the caller's `stat`, and the RMA count. -/
structure SendgetState where
  win_s : ByteMem
  win_g : ByteMem
  stat : Option Int
  rma : Nat

/-- One iteration of the per-element loop of `sendget`
(mpi_caf.c:1609-1668): `src_size` bytes are fetched from the `get` window
into a zeroed `dst_size` scratch buffer, and `dst_size` bytes of that buffer
are put at the destination offset in the `send` window; `pad_str` is NULL in
`sendget`, so no pad put ever runs. -/
def sendget_elem (offset_s offset_g : Int) (dest src : gfc_descriptor_t)
    (acc : SendgetState) (i : Nat) : SendgetState :=
  let dst_off : Int := offset_s + array_offset dest.dims i * dest.elem_size
  let sr_off : Int :=
    if descRank src ≠ 0
    then offset_g + array_offset src.dims i * src.elem_size
    else offset_g
  let tmp : ByteMem :=
    copy_bytes (fun _ => 0) 0 acc.win_g sr_off src.elem_size
  { acc with
      win_s := copy_bytes acc.win_s dst_off tmp 0 dest.elem_size,
      rma := acc.rma + 2 }

/-- `PREFIX (sendget)` (mpi_caf.c:1535-1674): the size loop over the `dest`
descriptor with zero-size early return; `pad_str` stays NULL throughout.
Fast path: the whole block is fetched from the `get` window into a zeroed
scratch buffer, then — when type and kind agree — put into the `send` window
with `min(dst_size, src_size) * size` bytes.  Otherwise the per-element loop
runs.  `sendget` has no own-image short-circuit. -/
def caf_sendget (image_index_s : Int) (offset_s : Int)
    (image_index_g : Int) (offset_g : Int)
    (dest src : gfc_descriptor_t) (src_kind dst_kind : Int)
    (st : SendgetState) : SendgetState :=
  let size := transfer_size (descRank dest) dest
  if size = 0 then st
  else if send_fast_cond dest src dst_kind src_kind then
    let tmp : ByteMem :=
      copy_bytes (fun _ => 0) 0 st.win_g offset_g (dest.elem_size * size)
    if dest.dtype == src.dtype && dst_kind == src_kind then
      let ws := copy_bytes st.win_s offset_s tmp 0
        ((min dest.elem_size src.elem_size) * size)
      { st with win_s := ws, rma := st.rma + 2 }
    else { st with rma := st.rma + 1 }
  else
    (List.range size).foldl (sendget_elem offset_s offset_g dest src) st

/-! ## Status codes and image bookkeeping -/

/-- Modelled from the spec: the numeric status codes live in `libcaf.h`,
which is not part of this source tree.  The spec (section 6) fixes `OK = 0`
and distinct symbolic codes; the numeric values below follow the gfortran
ABI and none of the claims depends on the exact numbers. -/
def STAT_STOPPED_IMAGE : Int := 6000

/-- Modelled from the spec: see `STAT_STOPPED_IMAGE`. -/
def STAT_FAILED_IMAGE : Int := 6001

/-- Modelled from the spec: see `STAT_STOPPED_IMAGE`. -/
def STAT_DUP_SYNC_IMAGES : Int := 3

/-- The reserved subset-sync message tag (mpi_caf.c:167). -/
def MPI_TAG_CAF_SYNC_IMAGES : Int := 424242

/-- The `images_full` table built at init (mpi_caf.c:787-790): every image
number in `[1 .. caf_num_images]` except the executing image, in order. -/
def images_full (num_images this_image : Int) : List Int :=
  ((List.range num_images.toNat).map (fun i : Nat => (i : Int) + 1)).filter
    (fun i => i ≠ this_image)

/-! ## `sync_images` (mpi_caf.c:3920-4091) -/

/-- The duplicate scan of `sync_images_internal` (mpi_caf.c:3950-3958): some
pair of distinct positions in the first `count` entries holds equal image
numbers. -/
def has_dup : List Int → Bool
  | [] => false
  | x :: xs => xs.contains x || has_dup xs

/-- What `sync_images_internal` decides to do before any message is
exchanged. -/
inductive SyncAction where
  /-- Early return of the empty or self-only set (mpi_caf.c:3938-3947). -/
  | noop
  /-- A duplicate image number was found (mpi_caf.c:3950-3958). -/
  | dupErr
  /-- The runtime is already finalized (mpi_caf.c:3972-3973). -/
  | stoppedErr
  /-- Post the receive/send pairs to exactly these images
  (mpi_caf.c:3976-4020). -/
  | sync (targets : List Int)
deriving DecidableEq, Repr

/-- The decision structure of `sync_images_internal` (mpi_caf.c:3927-3980):
the empty-set / self-only-set early return comes first, then the duplicate
scan over the first `count` entries, then the finalized check, and finally
`count = -1` is replaced by the `images_full` table. -/
def sync_images_internal (count : Int) (images : List Int)
    (this_image num_images : Int) (finalized : Bool) : SyncAction :=
  if count = 0 ∨ (count = 1 ∧ images.headD 0 = this_image) then .noop
  else if has_dup (images.take count.toNat) then .dupErr
  else if finalized then .stoppedErr
  else if count = -1 then .sync (images_full num_images this_image)
  else .sync (images.take count.toNat)

/-- The value left in the caller's `stat` variable by `sync_images`
(mpi_caf.c:3940-3941 and 4065-4066) for each outcome that is decided without
waiting for peers; in the syncing branch the final value depends on messages
from other images and is not modelled (`none` also when no `stat` was
passed). -/
def sync_images_stat_out (stat_present : Bool) : SyncAction → Option Int
  | .noop => if stat_present then some 0 else none
  | .dupErr => if stat_present then some STAT_DUP_SYNC_IMAGES else none
  | .stoppedErr => if stat_present then some STAT_STOPPED_IMAGE else none
  | .sync _ => none

/-- `PREFIX (sync_images)` as the pair of the decided action and the `stat`
outcome. -/
def sync_images_run (count : Int) (images : List Int)
    (this_image num_images : Int) (finalized : Bool) (stat_present : Bool) :
    SyncAction × Option Int :=
  let a := sync_images_internal count images this_image num_images finalized
  (a, sync_images_stat_out stat_present a)

/-! ## `mutex_lock` (mpi_caf.c:596-675) -/

/-- The message of the self-deadlock branch (mpi_caf.c:599) as bytes. -/
def already_locked_msg : List Nat :=
  (String.toList "Already locked").map Char.toNat

/-- The error-message protocol used by `mutex_lock` (mpi_caf.c:661-665) and
by `sync_images`/`register`: `memset` the whole buffer to spaces, then copy
`min(errmsg_len, strlen(msg))` message bytes over its start. -/
def errmsg_fill (msg : List Nat) (errmsg_len : Nat) : List Nat :=
  (List.range errmsg_len).map (fun j : Nat =>
    if h : j < min errmsg_len msg.length then msg.get ⟨j, by omega⟩ else 32)

/-- Result of one `mutex_lock` call. -/
structure MutexLockResult where
  /-- Lock slot value after the first compare-and-swap. -/
  slot : Int
  /-- Content of the caller's `stat` variable (`none` when absent or never
  written). -/
  stat : Option Int
  /-- Content of the caller's `acquired_lock` variable, when passed. -/
  acquired : Option Int
  /-- Content of the caller's `errmsg` buffer, when passed and written. -/
  errmsg : Option (List Nat)
  /-- `terminate_internal` was invoked. -/
  terminated : Bool
  /-- The unbounded retry loop was entered; its outcome depends on actions
  of other images and is not modelled further. -/
  spins : Bool

/-- `mutex_lock` (mpi_caf.c:596-675, `MPI_VERSION >= 3`, without
`WITH_FAILED_IMAGES`): `*stat` is zeroed on entry when present; one
`MPI_Compare_and_swap` of `0 → caf_this_image` runs on the slot
(`locking_atomic_op`, mpi_caf.c:388-396) and yields the previous value; when
that value is the executing image and the target is the executing image the
self-deadlock branch reports `stat = 99` with the space-padded message
"Already locked", or terminates when no `stat` was passed
(mpi_caf.c:615-616 and 660-670); with `acquired_lock` present the call
returns at once reporting whether the slot was free; otherwise a nonzero
previous value sends the call into the spin loop. -/
def mutex_lock (slot0 : Int) (this_image image_index : Int)
    (stat_present acquired_present : Bool) (errmsg_present : Bool)
    (errmsg_len : Nat) : MutexLockResult :=
  let slot1 : Int := if slot0 = 0 then this_image else slot0
  let value : Int := slot0
  if value = this_image ∧ image_index = this_image then
    { slot := slot1,
      stat := if stat_present then some 99 else none,
      acquired := none,
      errmsg := if errmsg_present
        then some (errmsg_fill already_locked_msg errmsg_len) else none,
      terminated := !stat_present,
      spins := false }
  else if acquired_present then
    { slot := slot1,
      stat := if stat_present then some 0 else none,
      acquired := some (if value = 0 then 1 else 0),
      errmsg := none, terminated := false, spins := false }
  else if value = 0 then
    { slot := slot1,
      stat := if stat_present then some 0 else none,
      acquired := none, errmsg := none, terminated := false, spins := false }
  else
    { slot := slot1,
      stat := if stat_present then some 0 else none,
      acquired := none, errmsg := none, terminated := false, spins := true }

/-! ## `register` (mpi_caf.c:1032-1185, the `GCC_GE_7` variant) -/

/-- The error message chosen at mpi_caf.c:1165-1168. -/
def register_fail_msg (finalized : Bool) : List Nat :=
  if finalized then
    (String.toList "Failed to allocate coarray - there are stopped images").map
      Char.toNat
  else (String.toList "Failed to allocate coarray").map Char.toNat

/-- The `stat` value of the `error` label of `register` (mpi_caf.c:1172):
a stopped-image code when the runtime is already finalized, else the generic
failure code 1. -/
def register_error_stat (finalized : Bool) : Int :=
  if finalized then STAT_STOPPED_IMAGE else 1

/-- Result of one `register` call. -/
structure RegisterResult where
  /-- Content of the caller's `stat` variable (`none` when absent or never
  written). -/
  stat : Option Int
  /-- Content of the caller's `errmsg` buffer, when written. -/
  errmsg : Option (List Nat)
  /-- `caf_runtime_error` was invoked (it terminates the image). -/
  runtime_error : Bool
  /-- A token was created and appended to its registry. -/
  registered : Bool

/-- `PREFIX (register)` (mpi_caf.c:1032-1185) reduced to its control
structure: the only detected failure is calling it after the runtime was
finalized (mpi_caf.c:1042-1043; allocation results are never checked).  The
`error` label (mpi_caf.c:1161-1184) writes `register_error_stat` into `stat`
and the space-padded message into `errmsg` when `errmsg_len > 0`, or calls
`caf_runtime_error` when no `stat` was passed.  On success `*stat = 0` is
written only in the master-token branch (mpi_caf.c:1146-1147), not in the
slave-token branch. -/
def caf_register (finalized : Bool) (slave_token_type : Bool)
    (stat_present : Bool) (errmsg_len : Nat) : RegisterResult :=
  if finalized then
    if stat_present then
      { stat := some (register_error_stat finalized),
        errmsg := if errmsg_len > 0
          then some (errmsg_fill (register_fail_msg finalized) errmsg_len)
          else none,
        runtime_error := false, registered := false }
    else
      { stat := none, errmsg := none, runtime_error := true,
        registered := false }
  else
    { stat := if stat_present ∧ ¬slave_token_type then some 0 else none,
      errmsg := none, runtime_error := false, registered := true }

/-! ## Termination (mpi_caf.c:4899-4952) and `finalize_internal`
(mpi_caf.c:839-...) -/

/-- Observable outcome of a terminating call. -/
structure StopOutcome where
  /-- The image's status word after `finalize_internal`
  (mpi_caf.c:850-865). -/
  img_status : Int
  /-- The peers to which the status word is sent with the `SYNC_IMAGES` tag
  (mpi_caf.c:869-871). -/
  peers_notified : List Int
  /-- Whether the full teardown (barrier, freeing of tokens and windows) ran;
  `finalize_internal` returns before it when `status_code` is nonzero
  (mpi_caf.c:894-900). -/
  teardown : Bool
  /-- The process exit code passed to `MPI_Abort`/`exit`
  (mpi_caf.c:4907-4909). -/
  exit_code : Int

/-- `finalize_internal` (mpi_caf.c:839-901, up to the early return): the
status word becomes `STAT_STOPPED_IMAGE` when `status_code` is 0 and
`status_code` itself otherwise; it is sent to every entry of `images_full`;
the teardown continues only for `status_code = 0`. -/
def finalize_internal (status_code : Int) (this_image num_images : Int) :
    Int × List Int × Bool :=
  (if status_code = 0 then STAT_STOPPED_IMAGE else status_code,
   images_full num_images this_image,
   status_code = 0)

/-- `terminate_internal` (mpi_caf.c:4899-4910): run `finalize_internal` with
the stat code, then leave the process with `exit_code`. -/
def terminate_internal (stat_code exit_code : Int)
    (this_image num_images : Int) : StopOutcome :=
  let f := finalize_internal stat_code this_image num_images
  { img_status := f.1, peers_notified := f.2.1, teardown := f.2.2,
    exit_code := exit_code }

/-- `PREFIX (stop_numeric)` (mpi_caf.c:4915-4923): print `STOP`, then
`terminate_internal (STAT_STOPPED_IMAGE, stop_code)`. -/
def stop_numeric (stop_code : Int) (this_image num_images : Int) :
    StopOutcome :=
  terminate_internal STAT_STOPPED_IMAGE stop_code this_image num_images

/-- `PREFIX (stop_str)` (mpi_caf.c:4928-4938): print the string, then
`terminate_internal (STAT_STOPPED_IMAGE, 0)`. -/
def stop_str (this_image num_images : Int) : StopOutcome :=
  terminate_internal STAT_STOPPED_IMAGE 0 this_image num_images

/-! ## `atomic_op` (mpi_caf.c:4708-4762) -/

/-- Result of one `atomic_op` call on an integer cell. -/
structure AtomicOpResult where
  /-- Value of the target cell after the call. -/
  target : Int
  /-- Content of the memory the caller passed as `old`. -/
  caller_old : Int
  /-- Value the fetch-and-op delivered into the internally `malloc`ed buffer
  (`none` for an unknown op code, where no fetch runs). -/
  internal_old : Option Int
  /-- The internal buffer was `free`d before returning (mpi_caf.c:4751). -/
  internal_buffer_freed : Bool
  /-- Content of the caller's `stat` variable, when passed. -/
  stat : Option Int

/-- `PREFIX (atomic_op)` (mpi_caf.c:4708-4762, `MPI_VERSION >= 3`): the local
variable `old` is overwritten with `malloc(kind)` before any use
(mpi_caf.c:4721), so the `MPI_Fetch_and_op` for op codes 1/2/4/5
(SUM/BAND/BOR/BXOR) writes the previous target value into that internal
buffer, which is freed before returning; the caller's `old` memory is never
written.  Unknown op codes only print a message. -/
def atomic_op (op : Int) (target0 : Int) (value : Int) (caller_old0 : Int)
    (stat_present : Bool) : AtomicOpResult :=
  let fetched : Option Int :=
    if op = 1 ∨ op = 2 ∨ op = 4 ∨ op = 5 then some target0 else none
  let target1 : Int :=
    if op = 1 then target0 + value
    else if op = 2 then Int.land target0 value
    else if op = 4 then Int.lor target0 value
    else if op = 5 then Int.xor target0 value
    else target0
  { target := target1,
    caller_old := caller_old0,
    internal_old := fetched,
    internal_buffer_freed := true,
    stat := if stat_present then some 0 else none }

/-! ## `COMPUTE_NUM_ITEMS` (mpi_caf.c:2683-2689)

The macro counts the items between a lower and an upper bound with respect to
a stride; on a non-positive raw count or a zero stride it makes the enclosing
walker function return, which is modelled as `none`.  C division on the
involved non-negative operands is truncation (`Int.tdiv`). -/

def compute_num_items (stride lb ub : Int) : Option Int :=
  let abs_stride : Int := if stride > 0 then stride else -stride
  let num : Int := if stride > 0 then ub + 1 - lb else lb + 1 - ub
  if num ≤ 0 ∨ abs_stride < 1 then none
  else some (if abs_stride > 1 then 1 + Int.tdiv (num - 1) abs_stride else num)

/-! # Claims -/

/-- C4: For every array-reference dimension processed by the reference walker
(`_gfortran_caf_get_by_ref`, mpi_caf.c:3283-3325) with lower bound `lb`,
upper bound `ub` and nonzero stride, the number of elements counted by
`COMPUTE_NUM_ITEMS` equals `num = (stride > 0 ? ub + 1 - lb : lb + 1 - ub)`
followed by `num = 1 + (num - 1) / |stride|`, whenever that first value is
positive. -/
theorem C4_compute_num_items (stride lb ub : Int) (hs : stride ≠ 0)
    (hpos : 0 < (if stride > 0 then ub + 1 - lb else lb + 1 - ub)) :
    compute_num_items stride lb ub
      = some (1 + ((if stride > 0 then ub + 1 - lb else lb + 1 - ub) - 1)
          / |stride|) := by
  rcases lt_or_gt_of_ne hs with h | h
  · have hns : ¬stride > 0 := by omega
    rw [if_neg hns] at hpos
    simp only [compute_num_items, if_neg hns, abs_of_neg h]
    rw [if_neg (by omega)]
    by_cases h2 : -stride > 1
    · rw [if_pos h2, Int.tdiv_eq_ediv (by omega) (by omega)]
    · have h3 : -stride = 1 := by omega
      rw [if_neg h2, h3, Int.ediv_one]
      congr 1
      omega
  · rw [if_pos h] at hpos
    simp only [compute_num_items, if_pos h, abs_of_pos h]
    rw [if_neg (by omega)]
    by_cases h2 : stride > 1
    · rw [if_pos h2, Int.tdiv_eq_ediv (by omega) (by omega)]
    · have h3 : stride = 1 := by omega
      rw [if_neg h2, h3, Int.ediv_one]
      congr 1
      omega

/-- Witness for C4 at `stride = 2`, `lb = 1`, `ub = 5`. -/
theorem C4_compute_num_items_witness :
    (2 : Int) ≠ 0 ∧
    0 < (if (2 : Int) > 0 then (5 : Int) + 1 - 1 else 1 + 1 - 5) ∧
    compute_num_items 2 1 5
      = some (1 + ((if (2 : Int) > 0 then (5 : Int) + 1 - 1 else 1 + 1 - 5)
          - 1) / |(2 : Int)|) :=
  ⟨by decide, by decide, C4_compute_num_items 2 1 5 (by decide) (by decide)⟩

/-- C5: `sync_images` applied to a set with a duplicate image index reports
`stat = STAT_DUP_SYNC_IMAGES`; the self-only set and the empty set are no-ops
reporting `stat = 0`; and the set `{*}` (passed as `count = -1`) is
interpreted as the `images_full` table, i.e. every image other than the
caller. -/
theorem C5_sync_images_rules :
    (∀ (count : Int) (images : List Int) (this_image num_images : Int)
       (fin : Bool),
       ¬(count = 0 ∨ (count = 1 ∧ images.headD 0 = this_image)) →
       has_dup (images.take count.toNat) = true →
       sync_images_run count images this_image num_images fin true
         = (SyncAction.dupErr, some STAT_DUP_SYNC_IMAGES)) ∧
    (∀ (images : List Int) (this_image num_images : Int) (fin : Bool),
       sync_images_run 0 images this_image num_images fin true
         = (SyncAction.noop, some 0)) ∧
    (∀ (tl : List Int) (this_image num_images : Int) (fin : Bool),
       sync_images_run 1 (this_image :: tl) this_image num_images fin true
         = (SyncAction.noop, some 0)) ∧
    (∀ (images : List Int) (this_image num_images : Int),
       sync_images_run (-1) images this_image num_images false true
         = (SyncAction.sync (images_full num_images this_image), none)) := by
  refine ⟨?_, ?_, ?_, ?_⟩
  · intro count images this_image num_images fin hno hdup
    simp only [sync_images_run, sync_images_internal, if_neg hno, if_pos hdup]
    rfl
  · intro images this_image num_images fin
    simp [sync_images_run, sync_images_internal, sync_images_stat_out]
  · intro tl this_image num_images fin
    simp [sync_images_run, sync_images_internal, sync_images_stat_out]
  · intro images this_image num_images
    have h0 : ((-1 : Int)).toNat = 0 := rfl
    simp [sync_images_run, sync_images_internal, sync_images_stat_out, h0,
      has_dup]

/-- Witness for C5: the duplicate branch at `count = 2`, `images = [2, 2]`,
image 1 of 4, and the `{*}` branch at `count = -1`. -/
theorem C5_sync_images_rules_witness :
    (¬((2 : Int) = 0 ∨ ((2 : Int) = 1 ∧ ([2, 2] : List Int).headD 0 = 1))) ∧
    has_dup (([2, 2] : List Int).take (2 : Int).toNat) = true ∧
    sync_images_run 2 [2, 2] 1 4 false true
      = (SyncAction.dupErr, some STAT_DUP_SYNC_IMAGES) ∧
    sync_images_run (-1) [] 1 4 false true
      = (SyncAction.sync (images_full 4 1), none) :=
  ⟨by decide, by decide,
   C5_sync_images_rules.1 2 [2, 2] 1 4 false (by decide) (by decide),
   C5_sync_images_rules.2.2.2 [] 1 4⟩

/-- C10: `sync_images` on the empty set or the self-only set reports
`stat = 0` and returns even when the runtime has already been finalized; the
no-op check precedes the finalized-runtime check, so `STAT_STOPPED_IMAGE` is
never reported for such a set. -/
theorem C10_sync_noop_precedes_finalized :
    ∀ (images tl : List Int) (this_image num_images : Int) (sp : Bool),
      sync_images_run 0 images this_image num_images true sp
        = (SyncAction.noop, if sp then some 0 else none) ∧
      sync_images_run 1 (this_image :: tl) this_image num_images true sp
        = (SyncAction.noop, if sp then some 0 else none) ∧
      sync_images_stat_out sp SyncAction.noop ≠ some STAT_STOPPED_IMAGE := by
  intro images tl this_image num_images sp
  refine ⟨?_, ?_, ?_⟩
  · simp [sync_images_run, sync_images_internal, sync_images_stat_out]
  · simp [sync_images_run, sync_images_internal, sync_images_stat_out]
  · cases sp <;> simp [sync_images_stat_out, STAT_STOPPED_IMAGE]

/-- The error-message protocol produces the message followed by spaces when
the buffer is at least as long as the message. -/
theorem errmsg_fill_eq (msg : List Nat) (len : Nat) (h : msg.length ≤ len) :
    errmsg_fill msg len = msg ++ List.replicate (len - msg.length) 32 := by
  apply List.ext_getElem
  · simp [errmsg_fill]
    omega
  · intro i h1 h2
    simp only [errmsg_fill, List.getElem_map, List.getElem_range]
    have hlen : i < len := by simpa [errmsg_fill] using h1
    by_cases hi : i < msg.length
    · rw [dif_pos (by omega), List.getElem_append_left hi]
      rfl
    · rw [dif_neg (by omega), List.getElem_append_right (by omega),
        List.getElem_replicate]

/-- C6: a `lock` call that targets a lock slot on the calling image which the
calling image itself already holds reports `stat = 99` and writes
"Already locked" space-padded into the caller-provided `errmsg` buffer; when
no `stat` output is provided, `terminate_internal` is invoked instead. -/
theorem C6_lock_self_deadlock (slot0 this_image image_index : Int)
    (len : Nat) (ap : Bool)
    (hheld : slot0 = this_image) (himg : image_index = this_image)
    (hlen : already_locked_msg.length ≤ len) :
    (mutex_lock slot0 this_image image_index true ap true len).stat
      = some 99 ∧
    (mutex_lock slot0 this_image image_index true ap true len).errmsg
      = some (already_locked_msg
          ++ List.replicate (len - already_locked_msg.length) 32) ∧
    (mutex_lock slot0 this_image image_index false ap true len).terminated
      = true := by
  subst hheld himg
  refine ⟨?_, ?_, ?_⟩ <;>
    simp [mutex_lock, errmsg_fill_eq already_locked_msg len hlen]

/-- Witness for C6: image 3 locking slot value 3 on itself, 20-byte buffer. -/
theorem C6_lock_self_deadlock_witness :
    (3 : Int) = 3 ∧ already_locked_msg.length ≤ 20 ∧
    (mutex_lock 3 3 3 true false true 20).stat = some 99 ∧
    (mutex_lock 3 3 3 true false true 20).errmsg
      = some (already_locked_msg
          ++ List.replicate (20 - already_locked_msg.length) 32) ∧
    (mutex_lock 3 3 3 false false true 20).terminated = true :=
  ⟨rfl, by decide,
   (C6_lock_self_deadlock 3 3 3 20 false rfl rfl (by decide)).1,
   (C6_lock_self_deadlock 3 3 3 20 false rfl rfl (by decide)).2.1,
   (C6_lock_self_deadlock 3 3 3 20 false rfl rfl (by decide)).2.2⟩

/-- C7: when `register` fails (the only detected failure is a call after the
runtime was finalized), the caller's `stat` receives the stopped-image code
when the runtime is finalized and the generic failure code 1 otherwise (the
`error`-label formula `register_error_stat`); the error message is written
space-padded into the caller's buffer; without a `stat` output,
`caf_runtime_error` terminates the image. -/
theorem C7_register_failure (len : Nat) (slave : Bool)
    (hlen : (register_fail_msg true).length ≤ len) :
    (caf_register true slave true len).stat = some STAT_STOPPED_IMAGE ∧
    (caf_register true slave true len).errmsg
      = some (register_fail_msg true
          ++ List.replicate (len - (register_fail_msg true).length) 32) ∧
    (caf_register true slave false len).runtime_error = true ∧
    register_error_stat true = STAT_STOPPED_IMAGE ∧
    register_error_stat false = 1 := by
  have hpos : 0 < len := by
    have : 0 < (register_fail_msg true).length := by decide
    omega
  refine ⟨rfl, ?_, rfl, rfl, rfl⟩
  rw [caf_register]
  simp only [if_pos trivial, if_pos hpos]
  rw [errmsg_fill_eq _ len hlen]

/-- Witness for C7 with a 64-byte message buffer. -/
theorem C7_register_failure_witness :
    (register_fail_msg true).length ≤ 64 ∧
    (caf_register true false true 64).stat = some STAT_STOPPED_IMAGE ∧
    (caf_register true false true 64).errmsg
      = some (register_fail_msg true
          ++ List.replicate (64 - (register_fail_msg true).length) 32) ∧
    (caf_register true false false 64).runtime_error = true ∧
    register_error_stat false = 1 :=
  ⟨by decide,
   (C7_register_failure 64 false (by decide)).1,
   (C7_register_failure 64 false (by decide)).2.1,
   (C7_register_failure 64 false (by decide)).2.2.1,
   (C7_register_failure 64 false (by decide)).2.2.2.2⟩

/-- C8 counterexample: `stop_numeric` with stop code 1 (image 1 of 4) hands
the stop code itself — not a success code — to `MPI_Abort`/`exit`, so the
process exit code is 1. -/
theorem C8_stop_numeric_exit_code_counterexample :
    (stop_numeric 1 1 4).exit_code = 1 ∧ ¬(stop_numeric 1 1 4).exit_code = 0 := by
  constructor <;> decide

/-- C8 (amended): `stop_numeric` and `stop_str` run the status part of
finalization — the calling image's status word becomes `STAT_STOPPED_IMAGE`
and is announced to every peer in `images_full` — and exit the process with
the passed stop code as exit code (`stop_str` with 0); the exit code is a
success code exactly when the stop code is 0, not for every stop code. -/
theorem C8_stop_semantics (stop_code this_image num_images : Int) :
    (stop_numeric stop_code this_image num_images).img_status
      = STAT_STOPPED_IMAGE ∧
    (stop_numeric stop_code this_image num_images).peers_notified
      = images_full num_images this_image ∧
    (stop_numeric stop_code this_image num_images).exit_code = stop_code ∧
    (stop_str this_image num_images).img_status = STAT_STOPPED_IMAGE ∧
    (stop_str this_image num_images).peers_notified
      = images_full num_images this_image ∧
    (stop_str this_image num_images).exit_code = 0 := by
  refine ⟨?_, rfl, rfl, ?_, rfl, rfl⟩ <;>
    simp [stop_numeric, stop_str, terminate_internal, finalize_internal,
      STAT_STOPPED_IMAGE]

/-- C9: `atomic_op` never delivers the fetched previous value to the caller:
the local `old` pointer is overwritten with an internal `malloc`ed buffer
before any use, the fetch-and-op writes the previous target value into that
buffer, and the buffer is freed before returning, so the memory the caller
passed as `old` is left unchanged. -/
theorem C9_atomic_op_old_never_delivered (op target0 value old0 : Int)
    (sp : Bool) :
    (atomic_op op target0 value old0 sp).caller_old = old0 ∧
    (atomic_op op target0 value old0 sp).internal_buffer_freed = true ∧
    (atomic_op 1 target0 value old0 sp).internal_old = some target0 ∧
    (atomic_op 2 target0 value old0 sp).internal_old = some target0 ∧
    (atomic_op 4 target0 value old0 sp).internal_old = some target0 ∧
    (atomic_op 5 target0 value old0 sp).internal_old = some target0 := by
  refine ⟨rfl, rfl, ?_, ?_, ?_, ?_⟩ <;> simp [atomic_op]

/-- C2 counterexample: a `get` whose destination descriptor has total element
count 0 (rank 1, extent `max(0, 0 - 1 + 1) = 0`) but whose source is scalar
(rank 0) is not a no-op: `get` computes its count over only the first
`rank(src) = 0` destination dimensions, obtains 1, and issues an `MPI_Get`. -/
theorem C2_zero_count_get_counterexample :
    transfer_size
      (descRank (⟨100, 4, BT.integer, [⟨1, 0, 1⟩]⟩ : gfc_descriptor_t))
      (⟨100, 4, BT.integer, [⟨1, 0, 1⟩]⟩ : gfc_descriptor_t) = 0 ∧
    (caf_get 1 2 0 (⟨0, 4, BT.integer, []⟩ : gfc_descriptor_t)
      (⟨100, 4, BT.integer, [⟨1, 0, 1⟩]⟩ : gfc_descriptor_t) 4 4 false
      ⟨fun _ => 0, fun _ => 7, none, 0⟩).rma = 1 := by
  constructor <;> decide

/-- C2 (amended): a `send` or `sendget` whose total element count — the
product over the destination descriptor's dimensions of
`max(0, ub - lb + 1)` — is zero returns immediately, issuing no RMA and
leaving the windows and the `stat` output untouched.  A `get` computes its
count over only the first `rank(src)` destination dimensions and is a no-op
exactly when that count is zero; when source and destination ranks agree this
coincides with the claim. -/
theorem C2_zero_count_noop :
    (∀ (this_image image_index offset : Int)
       (dest src : gfc_descriptor_t) (dk sk : Int) (mrt : Bool)
       (st : TransferState),
       transfer_size (descRank dest) dest = 0 →
       caf_send this_image image_index offset dest src dk sk mrt st = st) ∧
    (∀ (iis os iig og : Int) (dest src : gfc_descriptor_t) (sk dk : Int)
       (st : SendgetState),
       transfer_size (descRank dest) dest = 0 →
       caf_sendget iis os iig og dest src sk dk st = st) ∧
    (∀ (this_image image_index offset : Int)
       (src dest : gfc_descriptor_t) (sk dk : Int) (mrt : Bool)
       (st : TransferState),
       transfer_size (descRank src) dest = 0 →
       caf_get this_image image_index offset src dest sk dk mrt st = st) ∧
    (∀ (this_image image_index offset : Int)
       (src dest : gfc_descriptor_t) (sk dk : Int) (mrt : Bool)
       (st : TransferState),
       descRank src = descRank dest →
       transfer_size (descRank dest) dest = 0 →
       caf_get this_image image_index offset src dest sk dk mrt st = st) := by
  refine ⟨?_, ?_, ?_, ?_⟩
  · intro this_image image_index offset dest src dk sk mrt st h
    simp only [caf_send]
    rw [if_pos h]
  · intro iis os iig og dest src sk dk st h
    simp only [caf_sendget]
    rw [if_pos h]
  · intro this_image image_index offset src dest sk dk mrt st h
    simp only [caf_get]
    rw [if_pos h]
  · intro this_image image_index offset src dest sk dk mrt st hr h
    simp only [caf_get]
    rw [hr, if_pos h]

/-- Witness for C2 (amended) at a rank-1 destination of extent 0. -/
theorem C2_zero_count_noop_witness :
    transfer_size
      (descRank (⟨100, 4, BT.integer, [⟨1, 0, 1⟩]⟩ : gfc_descriptor_t))
      (⟨100, 4, BT.integer, [⟨1, 0, 1⟩]⟩ : gfc_descriptor_t) = 0 ∧
    caf_send 1 2 16 (⟨100, 4, BT.integer, [⟨1, 0, 1⟩]⟩ : gfc_descriptor_t)
      (⟨0, 4, BT.integer, [⟨1, 0, 1⟩]⟩ : gfc_descriptor_t) 4 4 false
      ⟨fun _ => 1, fun _ => 2, none, 0⟩
      = (⟨fun _ => 1, fun _ => 2, none, 0⟩ : TransferState) ∧
    caf_get 1 2 16 (⟨100, 4, BT.integer, [⟨1, 0, 1⟩]⟩ : gfc_descriptor_t)
      (⟨0, 4, BT.integer, [⟨1, 0, 1⟩]⟩ : gfc_descriptor_t) 4 4 false
      ⟨fun _ => 1, fun _ => 2, none, 0⟩
      = (⟨fun _ => 1, fun _ => 2, none, 0⟩ : TransferState) :=
  ⟨by decide,
   C2_zero_count_noop.1 1 2 16 ⟨100, 4, BT.integer, [⟨1, 0, 1⟩]⟩
     ⟨0, 4, BT.integer, [⟨1, 0, 1⟩]⟩ 4 4 false ⟨fun _ => 1, fun _ => 2, none, 0⟩
     (by decide),
   C2_zero_count_noop.2.2.1 1 2 16 ⟨100, 4, BT.integer, [⟨1, 0, 1⟩]⟩
     ⟨0, 4, BT.integer, [⟨1, 0, 1⟩]⟩ 4 4 false ⟨fun _ => 1, fun _ => 2, none, 0⟩
     (by decide)⟩

/-- C3 destination: a rank-1 CHARACTER array of one element, element size 2,
living at offset 0 of the target window. -/
def c3_dest : gfc_descriptor_t := ⟨200, 2, BT.character, [⟨1, 1, 1⟩]⟩

/-- C3 source: like-shaped CHARACTER of element size 1 at local address 0. -/
def c3_src : gfc_descriptor_t := ⟨0, 1, BT.character, [⟨1, 1, 1⟩]⟩

/-- C3 pre-state: source byte 88 at address 0, every other local byte 65,
target window all zero. -/
def c3_state : TransferState :=
  ⟨fun a => if a = 0 then 88 else 65, fun _ => 0, none, 0⟩

/-- C3: evaluation of `send` at the failing input.  A remote `send` of one
CHARACTER element with `dst_size = 2 > src_size = 1` and kind 1 takes the
per-element path (the fast path demands equal element sizes for CHARACTER)
and puts the one-byte space pad at the element's start (mpi_caf.c:1965-1967),
so the destination element becomes `[32, 65]`: the leading byte is the space
and the trailing code unit holds the over-read byte 65 behind the source
element, not the space 32 that the claim (and `get`, mpi_caf.c:2262-2266)
prescribe.  The pad content itself is correct: every byte of a kind-1 pad and
every 32-bit unit of a kind-4 pad is the space 0x20. -/
theorem C3_send_pad_misplaced :
    (caf_send 1 2 0 c3_dest c3_src 1 1 false c3_state).win 0 = 32 ∧
    (caf_send 1 2 0 c3_dest c3_src 1 1 false c3_state).win 1 = 65 ∧
    ¬(caf_send 1 2 0 c3_dest c3_src 1 1 false c3_state).win 1 = 32 ∧
    pad_str_bytes 1 5 = List.replicate 5 32 ∧
    pad_str_bytes 4 8 = [32, 0, 0, 0, 32, 0, 0, 0] := by
  refine ⟨?_, ?_, ?_, ?_, ?_⟩ <;> decide

/-- C1: for every contiguous array `A` on image 1 and any peer `P ≠ 1`,
`send(A → P)` followed by `get(P → B)` into a like-shaped contiguous
destination `B` of the same type, kind and element size yields `B` equal to
`A` byte-for-byte: both transfers take the contiguous fast path through the
same window offset, the send puts `es * size` source bytes, and the get reads
the same `es * size` bytes back. -/
theorem C1_round_trip (ds : List descriptor_dimension) (es : Nat) (t : BT)
    (k P baseA baseB baseRemS baseRemG offset : Int) (mrt1 mrt2 : Bool)
    (st : TransferState)
    (hP : P ≠ 1) (hc : contiguous_dims 1 ds = true) :
    read_list
      ((caf_get 1 P offset ⟨baseRemG, es, t, ds⟩ ⟨baseB, es, t, ds⟩ k k mrt2
        (caf_send 1 P offset ⟨baseRemS, es, t, ds⟩ ⟨baseA, es, t, ds⟩ k k mrt1
          st)).localMem)
      baseB (es * transfer_size ds.length ⟨baseB, es, t, ds⟩)
    = read_list st.localMem baseA
        (es * transfer_size ds.length ⟨baseB, es, t, ds⟩) := by
  have h1P : ¬(1 : Int) = P := fun h => hP h.symm
  by_cases hN : transfer_size ds.length (⟨baseB, es, t, ds⟩ : gfc_descriptor_t) = 0
  · have hsend : caf_send 1 P offset ⟨baseRemS, es, t, ds⟩ ⟨baseA, es, t, ds⟩
        k k mrt1 st = st := by
      simp only [caf_send]
      rw [if_pos (show transfer_size
        (descRank (⟨baseRemS, es, t, ds⟩ : gfc_descriptor_t))
        ⟨baseRemS, es, t, ds⟩ = 0 from hN)]
    have hget : caf_get 1 P offset ⟨baseRemG, es, t, ds⟩ ⟨baseB, es, t, ds⟩
        k k mrt2 st = st := by
      simp only [caf_get]
      rw [if_pos (show transfer_size
        (descRank (⟨baseRemG, es, t, ds⟩ : gfc_descriptor_t))
        ⟨baseB, es, t, ds⟩ = 0 from hN)]
    rw [hsend, hget, hN]
    simp [read_list]
  · have hfast : send_fast_cond ⟨baseRemS, es, t, ds⟩ ⟨baseA, es, t, ds⟩ k k
        = true := by
      cases ds with
      | nil => simp [send_fast_cond, descRank]
      | cons d tl =>
        simp [send_fast_cond, descRank, is_contiguous]
        exact hc
    have hfastg : get_fast_cond ⟨baseB, es, t, ds⟩ ⟨baseRemG, es, t, ds⟩ k k
        = true := by
      cases ds with
      | nil => simp [get_fast_cond, descRank]
      | cons d tl =>
        simp [get_fast_cond, descRank, is_contiguous]
        exact hc
    have hpad : ¬(((⟨baseRemS, es, t, ds⟩ : gfc_descriptor_t).dtype
        == BT.character
        && decide ((⟨baseRemS, es, t, ds⟩ : gfc_descriptor_t).elem_size
          > (⟨baseA, es, t, ds⟩ : gfc_descriptor_t).elem_size)) = true) := by
      simp
    have hsend : caf_send 1 P offset ⟨baseRemS, es, t, ds⟩ ⟨baseA, es, t, ds⟩
        k k mrt1 st
        = { st with
              win := copy_bytes st.win offset st.localMem baseA
                (es * transfer_size ds.length ⟨baseB, es, t, ds⟩),
              rma := st.rma + 1 } := by
      simp only [caf_send]
      rw [if_neg (show ¬transfer_size
          (descRank (⟨baseRemS, es, t, ds⟩ : gfc_descriptor_t))
          ⟨baseRemS, es, t, ds⟩ = 0 from hN)]
      rw [if_pos hfast, if_neg h1P]
      rw [if_pos (show ((⟨baseRemS, es, t, ds⟩ : gfc_descriptor_t).dtype
        == (⟨baseA, es, t, ds⟩ : gfc_descriptor_t).dtype && (k == k)) = true
        by simp)]
      rw [if_neg hpad]
      rw [show min (⟨baseRemS, es, t, ds⟩ : gfc_descriptor_t).elem_size
        (⟨baseA, es, t, ds⟩ : gfc_descriptor_t).elem_size = es
        from Nat.min_self es]
      rfl
    rw [hsend]
    have hget : caf_get 1 P offset ⟨baseRemG, es, t, ds⟩ ⟨baseB, es, t, ds⟩
        k k mrt2
        ({ st with
             win := copy_bytes st.win offset st.localMem baseA
               (es * transfer_size ds.length ⟨baseB, es, t, ds⟩),
             rma := st.rma + 1 })
        = { st with
              localMem := copy_bytes st.localMem baseB
                (copy_bytes st.win offset st.localMem baseA
                  (es * transfer_size ds.length ⟨baseB, es, t, ds⟩))
                offset (es * transfer_size ds.length ⟨baseB, es, t, ds⟩),
              win := copy_bytes st.win offset st.localMem baseA
                (es * transfer_size ds.length ⟨baseB, es, t, ds⟩),
              rma := st.rma + 1 + 1 } := by
      simp only [caf_get]
      rw [if_neg (show ¬transfer_size
          (descRank (⟨baseRemG, es, t, ds⟩ : gfc_descriptor_t))
          ⟨baseB, es, t, ds⟩ = 0 from hN)]
      rw [if_pos hfastg, if_neg h1P]
      rw [if_neg (show ¬(((⟨baseB, es, t, ds⟩ : gfc_descriptor_t).dtype
        == BT.character
        && decide ((⟨baseB, es, t, ds⟩ : gfc_descriptor_t).elem_size
          > (⟨baseRemG, es, t, ds⟩ : gfc_descriptor_t).elem_size)) = true)
        by simp)]
      rfl
    rw [hget]
    rw [show ({ st with
          localMem := copy_bytes st.localMem baseB
            (copy_bytes st.win offset st.localMem baseA
              (es * transfer_size ds.length ⟨baseB, es, t, ds⟩))
            offset (es * transfer_size ds.length ⟨baseB, es, t, ds⟩),
          win := copy_bytes st.win offset st.localMem baseA
            (es * transfer_size ds.length ⟨baseB, es, t, ds⟩),
          rma := st.rma + 1 + 1 } : TransferState).localMem
      = copy_bytes st.localMem baseB
          (copy_bytes st.win offset st.localMem baseA
            (es * transfer_size ds.length ⟨baseB, es, t, ds⟩))
          offset (es * transfer_size ds.length ⟨baseB, es, t, ds⟩) from rfl]
    rw [read_copy_bytes, read_copy_bytes]

/-- Witness for C1: a 3-element contiguous INTEGER(4) round trip between
image 1 and peer 2 through window offset 16. -/
theorem C1_round_trip_witness :
    (2 : Int) ≠ 1 ∧
    contiguous_dims 1 [⟨1, 3, 1⟩] = true ∧
    read_list ((caf_get 1 2 16 ⟨60, 4, BT.integer, [⟨1, 3, 1⟩]⟩
        ⟨100, 4, BT.integer, [⟨1, 3, 1⟩]⟩ 4 4 false
        (caf_send 1 2 16 ⟨50, 4, BT.integer, [⟨1, 3, 1⟩]⟩
          ⟨0, 4, BT.integer, [⟨1, 3, 1⟩]⟩ 4 4 false
          ⟨fun a => (a + 5).toNat, fun _ => 0, none, 0⟩)).localMem)
      100 (4 * transfer_size 1 ⟨100, 4, BT.integer, [⟨1, 3, 1⟩]⟩)
    = read_list (fun a => (a + 5).toNat) 0
        (4 * transfer_size 1 ⟨100, 4, BT.integer, [⟨1, 3, 1⟩]⟩) :=
  ⟨by decide, by decide,
   C1_round_trip [⟨1, 3, 1⟩] 4 BT.integer 4 2 0 100 50 60 16 false false
     ⟨fun a => (a + 5).toNat, fun _ => 0, none, 0⟩ (by decide) (by decide)⟩
